import Mathlib

/-!
Shallow embedding of the transform-cache logic of
`src/packages/plugins/lib/assetRegisterPlugin/helpers/fs.ts`
(the hermes-transform plugin): the two-tier cache lookup
`getTransformedSourceFromCache`, the transform-and-store step
`transformSource`, and the `build.onLoad` callback. The `CacheManager`
class itself is outside the source tree, so its four operations and the
content hash are modelled from the specification.
-/

namespace RnEsbuild

/-- Entry stored in the in-process memory tier: the transformed text plus
the file modification time observed when the entry was written. -/
structure MemoryCacheEntry where
  data : String
  modifiedAt : Nat
deriving DecidableEq, Repr

/-- Input tuple of the content hash: platform, serialized configuration,
absolute file path, and file modification time in milliseconds. -/
abbrev HashParam := Option String × String × String × Nat

/-- Modelled from the spec: `CacheManager.getCacheHash` is code of this
repository that is not under `src/` (only its caller is). Section 4.1
describes it as a pure deterministic digest of the ordered input tuple in
which any change of input changes the output; it is idealized here as the
injective identity on the tuple, so the filesystem tier is keyed by the
exact inputs that produced its contents. -/
def getCacheHash (p : HashParam) : HashParam := p

/-- Association-list lookup used to model the two tier mappings; the first
binding of a key wins, so prepending a binding overwrites the old one. -/
def alookup {α β : Type} [DecidableEq α] : List (α × β) → α → Option β
  | [], _ => none
  | (k, v) :: rest, key => if k = key then some v else alookup rest key

/-- Combined contents of the two cache tiers held by one `CacheManager`
instance: the process-lifetime memory map and the on-disk hash map. -/
structure CacheState where
  memory : List (String × MemoryCacheEntry)
  filesystem : List (HashParam × String)
deriving DecidableEq, Repr

/-- Modelled from the spec: `CacheManager.readFromMemory` (section 4.2),
a side-effect-free map lookup. -/
def readFromMemory (st : CacheState) (key : String) : Option MemoryCacheEntry :=
  alookup st.memory key

/-- Modelled from the spec: `CacheManager.writeToMemory` (section 4.2),
an unconditional overwrite of the binding for `key`. -/
def writeToMemory (st : CacheState) (key : String) (entry : MemoryCacheEntry) :
    CacheState :=
  { st with memory := (key, entry) :: st.memory }

/-- Modelled from the spec: `CacheManager.readFromFileSystem` (section 4.3);
absence, including a not-found I/O condition, is a normal miss. -/
def readFromFileSystem (st : CacheState) (h : HashParam) : Option String :=
  alookup st.filesystem h

/-- Modelled from the spec: `CacheManager.writeToFileSystem` (sections 4.3
and 7), a best-effort durable write: an I/O failure (`ok = false`) is
reported but not raised, and leaves the tier unchanged. -/
def writeToFileSystem (ok : Bool) (st : CacheState) (h : HashParam)
    (content : String) : CacheState :=
  if ok then { st with filesystem := (h, content) :: st.filesystem } else st

/-- One custom transform rule: its `test` predicate on the file path and
the current source text (the plugins it carries are identified by the
rule's position in the configured list). -/
structure CustomRule where
  test : String → String → Bool

/-- Identifies the option set a `transformWithBabel` call site passes:
the fully-transform call with `babelrc: true`, the flow-strip call, or a
custom rule's plugin list. -/
inductive BabelMode
  | fullBabelrc
  | flowStrip
  | customRule (i : Nat)
deriving DecidableEq, Repr

/-- External collaborators of the plugin: the opaque babel and swc
transformers; either may fail, which is fatal for that file load. -/
structure Transformers where
  babel : String → BabelMode → Except String String
  swc : String → Except String String

/-- Static configuration captured by the plugin closure in `setup`:
the cache switch (`context.bundlerConfig.dev`), the build platform, the
serialized `context.config` (as hashed), the two package-name regexps as
path predicates, the flow heuristic, and the custom rules. -/
structure PluginConfig where
  cacheEnabled : Bool
  platform : Option String
  config : String
  fullyTransformMatch : String → Bool
  stripFlowMatch : String → Bool
  isFlow : String → String → Bool
  customRules : List CustomRule

/-- Memory-tier key derivation (fs.ts line 155): the file path concatenated
with the platform, a missing platform contributing the empty string. -/
def memoryCacheKey (path : String) (platform : Option String) : String :=
  path ++ platform.getD ""

/-- Outcomes of the file-system interactions of one lookup: whether
`fs.open` succeeds, the result of `fileHandle.stat`, the result of
`fileHandle.readFile`, and whether the awaited filesystem-tier read
rejects. -/
structure FileOps where
  openOk : Bool
  statResult : Except String Nat
  readResult : Except String String
  tierReadThrows : Bool

/-- Value produced by `getTransformedSourceFromCache` on success
(`contents`, `fromCache`, optional `hash`). -/
structure LookupResult where
  contents : String
  fromCache : Bool
  hash : Option HashParam
deriving DecidableEq, Repr

/-- Observable outcome of one lookup: the returned value or the propagated
error, the cache state afterwards, and whether the source file handle was
opened and whether it was closed. -/
structure LookupOut where
  result : Except String LookupResult
  state : CacheState
  opened : Bool
  closed : Bool

/-- The lookup coordinator (fs.ts lines 144 to 205): opens the source file;
when caching is enabled it stats the file, checks the memory tier (serving
a hit only when the recorded modification time matches, otherwise reading
the raw source and returning a fresh hash), then checks the filesystem
tier (promoting a hit into the memory tier), and otherwise returns the raw
source with the hash variable as last assigned; the finally block closes
the handle on every path. -/
def getTransformedSourceFromCache (cfg : PluginConfig) (path : String)
    (fio : FileOps) (st : CacheState) : LookupOut :=
  if fio.openOk then
    let body : Except String LookupResult × CacheState :=
      if cfg.cacheEnabled then
        match fio.statResult with
        | .error e => (.error e, st)
        | .ok mtimeMs =>
          let key := memoryCacheKey path cfg.platform
          let hashParam : HashParam := (cfg.platform, cfg.config, path, mtimeMs)
          match readFromMemory st key with
          | some entry =>
            if entry.modifiedAt = mtimeMs then
              (.ok { contents := entry.data, fromCache := true, hash := none }, st)
            else
              match fio.readResult with
              | .error e => (.error e, st)
              | .ok raw =>
                (.ok { contents := raw, fromCache := false,
                       hash := some (getCacheHash hashParam) }, st)
          | none =>
            let h := getCacheHash hashParam
            if fio.tierReadThrows then
              (.error "filesystem tier read rejected", st)
            else
              match readFromFileSystem st h with
              | some cachedSource =>
                (.ok { contents := cachedSource, fromCache := true, hash := none },
                 writeToMemory st key { data := cachedSource, modifiedAt := mtimeMs })
              | none =>
                match fio.readResult with
                | .error e => (.error e, st)
                | .ok raw =>
                  (.ok { contents := raw, fromCache := false, hash := some h }, st)
      else
        match fio.readResult with
        | .error e => (.error e, st)
        | .ok raw => (.ok { contents := raw, fromCache := false, hash := none }, st)
    { result := body.1, state := body.2, opened := true, closed := true }
  else
    { result := .error "file open failed", state := st, opened := false, closed := false }

/-- Folds the custom transform rules over the source in order (the
for-await loop, fs.ts lines 243 to 250), applying babel with rule `i`'s
plugins whenever the rule's test matches. -/
def applyCustomRules (t : Transformers) (path : String) :
    Nat → List CustomRule → String → Except String String
  | _, [], source => .ok source
  | i, rule :: rest, source =>
    if rule.test path source then
      match t.babel source (.customRule i) with
      | .error e => .error e
      | .ok next => applyCustomRules t path (i + 1) rest next
    else applyCustomRules t path (i + 1) rest source

/-- The transformer pipeline of `transformSource` (fs.ts lines 216 to 253):
the optional fully-transform babel pass, the flow-strip babel pass (skipped
when fully transformed), the custom rules, and the final swc pass. -/
def transformPipeline (cfg : PluginConfig) (t : Transformers) (path : String)
    (rawSource : String) : Except String String :=
  let step1 : Except String (String × Bool) :=
    if cfg.fullyTransformMatch path then
      match t.babel rawSource .fullBabelrc with
      | .error e => .error e
      | .ok s => .ok (s, true)
    else .ok (rawSource, false)
  match step1 with
  | .error e => .error e
  | .ok (s1, fullyTransformed) =>
    let step2 : Except String String :=
      if !fullyTransformed && (cfg.isFlow s1 path || cfg.stripFlowMatch path) then
        t.babel s1 .flowStrip
      else .ok s1
    match step2 with
    | .error e => .error e
    | .ok s2 =>
      match applyCustomRules t path 0 cfg.customRules s2 with
      | .error e => .error e
      | .ok s3 => t.swc s3

/-- The transform-and-store step (fs.ts lines 207 to 260): throws unless a
hash was supplied, runs the transformer pipeline, and when caching is
enabled performs the best-effort filesystem-tier write before returning
the transformed source together with the resulting cache state. -/
def transformSource (cfg : PluginConfig) (t : Transformers) (fsWriteOk : Bool)
    (path : String) (rawSource : String) (hash : Option HashParam)
    (st : CacheState) : Except String (String × CacheState) :=
  match hash with
  | none => .error "hash is required for caching"
  | some h =>
    match transformPipeline cfg t path rawSource with
    | .error e => .error e
    | .ok s4 =>
      let st2 := if cfg.cacheEnabled then writeToFileSystem fsWriteOk st h s4 else st
      .ok (s4, st2)

/-- Result of the `onLoad` callback for one file: the contents handed to
esbuild or the propagated error, and the cache state afterwards. -/
structure LoadOut where
  result : Except String String
  state : CacheState

/-- The `build.onLoad` callback (fs.ts lines 262 to 283): performs the
cache lookup and returns the looked-up contents directly on a cache hit,
otherwise transforms the raw source via `transformSource`. -/
def onLoad (cfg : PluginConfig) (t : Transformers) (fsWriteOk : Bool)
    (path : String) (fio : FileOps) (st : CacheState) : LoadOut :=
  let lu := getTransformedSourceFromCache cfg path fio st
  match lu.result with
  | .error e => { result := .error e, state := lu.state }
  | .ok r =>
    if r.fromCache then { result := .ok r.contents, state := lu.state }
    else
      match transformSource cfg t fsWriteOk path r.contents r.hash lu.state with
      | .error e => { result := .error e, state := lu.state }
      | .ok (s, st2) => { result := .ok s, state := st2 }

/-- Decidable equality for `Except`, used to evaluate outcomes on concrete
inputs. -/
instance {ε α : Type} [DecidableEq ε] [DecidableEq α] : DecidableEq (Except ε α) := fun a b =>
  match a, b with
  | .error e1, .error e2 =>
    if h : e1 = e2 then isTrue (h ▸ rfl) else isFalse (fun hc => h (Except.error.inj hc))
  | .error _, .ok _ => isFalse (fun hc => Except.noConfusion hc)
  | .ok _, .error _ => isFalse (fun hc => Except.noConfusion hc)
  | .ok a1, .ok a2 =>
    if h : a1 = a2 then isTrue (h ▸ rfl) else isFalse (fun hc => h (Except.ok.inj hc))

/-- Example configuration with caching enabled, the android platform, and
no package-name or custom transform rules. -/
def cfgOn : PluginConfig :=
  { cacheEnabled := true, platform := some "android", config := "cfg",
    fullyTransformMatch := fun _ => false, stripFlowMatch := fun _ => false,
    isFlow := fun _ _ => false, customRules := [] }

/-- Example configuration with caching disabled. -/
def cfgOff : PluginConfig :=
  { cfgOn with cacheEnabled := false }

/-- Transformers that succeed and return the source unchanged, used to
evaluate the pipeline on concrete inputs. -/
def idTransformers : Transformers :=
  { babel := fun s _ => .ok s, swc := fun s => .ok s }

/-- File-system outcomes where every operation succeeds: modification time
7, raw contents "raw". -/
def fioOk : FileOps :=
  { openOk := true, statResult := .ok 7, readResult := .ok "raw",
    tierReadThrows := false }

/-- Cache state with both tiers empty. -/
def stEmpty : CacheState :=
  { memory := [], filesystem := [] }

/-- Cache state whose memory tier holds a fresh entry (modification time 7)
for `/a.js` on android. -/
def stHit : CacheState :=
  { memory := [(memoryCacheKey "/a.js" (some "android"),
                { data := "cached", modifiedAt := 7 })],
    filesystem := [] }

/-- Cache state whose memory tier holds a stale entry (modification time 3,
current is 7) for `/a.js` on android. -/
def stStale : CacheState :=
  { memory := [(memoryCacheKey "/a.js" (some "android"),
                { data := "cached", modifiedAt := 3 })],
    filesystem := [] }

/-- The content hash of `/a.js` on android at modification time 7 under the
example configuration. -/
def hashW : HashParam := getCacheHash (some "android", "cfg", "/a.js", 7)

/-- Filesystem tier holding "cached" at the hash of `/a.js`'s current
state. -/
def fslW : List (HashParam × String) := [(hashW, "cached")]

/-- C2: when a memory entry exists for the lookup key, the lookup serves
the entry's data as a cache hit exactly when the entry's recorded
`modifiedAt` equals the file's current modification time; when the
modification time changed, the lookup instead returns the file's current
raw bytes as a miss with a freshly computed hash, never the previously
cached content. -/
theorem rn_c2 (cfg : PluginConfig) (path : String) (fio : FileOps)
    (st : CacheState) (entry : MemoryCacheEntry) (mtimeMs : Nat) (raw : String)
    (hen : cfg.cacheEnabled = true) (hopen : fio.openOk = true)
    (hstat : fio.statResult = .ok mtimeMs)
    (hmem : readFromMemory st (memoryCacheKey path cfg.platform) = some entry)
    (hread : fio.readResult = .ok raw) :
    ((getTransformedSourceFromCache cfg path fio st).result =
        .ok { contents := entry.data, fromCache := true, hash := none } ↔
      entry.modifiedAt = mtimeMs) ∧
    (entry.modifiedAt ≠ mtimeMs →
      (getTransformedSourceFromCache cfg path fio st).result =
        .ok { contents := raw, fromCache := false,
              hash := some (getCacheHash (cfg.platform, cfg.config, path, mtimeMs)) }) := by
  by_cases hmt : entry.modifiedAt = mtimeMs <;>
    simp [getTransformedSourceFromCache, hen, hopen, hstat, hmem, hread, hmt]

/-- Witness for C2 at a concrete fresh memory entry. -/
theorem rn_c2_witness :
    (getTransformedSourceFromCache cfgOn "/a.js" fioOk stHit).result =
      .ok { contents := "cached", fromCache := true, hash := none } :=
  (rn_c2 cfgOn "/a.js" fioOk stHit { data := "cached", modifiedAt := 7 } 7 "raw"
    rfl rfl rfl (by decide) rfl).1.mpr rfl

/-- C4: with caching disabled, the lookup returns the raw file bytes as a
miss with no hash, for every cache state (neither tier is read), and the
cache state is left unchanged (neither tier is written). -/
theorem rn_c4 (cfg : PluginConfig) (path : String) (fio : FileOps)
    (raw : String)
    (hdis : cfg.cacheEnabled = false) (hopen : fio.openOk = true)
    (hread : fio.readResult = .ok raw) :
    (∀ st : CacheState,
      (getTransformedSourceFromCache cfg path fio st).result =
        .ok { contents := raw, fromCache := false, hash := none }) ∧
    ∀ st : CacheState, (getTransformedSourceFromCache cfg path fio st).state = st := by
  constructor <;> intro st <;>
    simp [getTransformedSourceFromCache, hdis, hopen, hread]

/-- Witness for C4 with a populated memory tier that is bypassed. -/
theorem rn_c4_witness :
    (getTransformedSourceFromCache cfgOff "/a.js" fioOk stHit).result =
      .ok { contents := "raw", fromCache := false, hash := none } :=
  (rn_c4 cfgOff "/a.js" fioOk "raw" rfl rfl rfl).1 stHit

/-- C5: when the memory entry is stale (recorded modification time differs
from the current one), the lookup returns the raw bytes with a freshly
computed hash, leaves the whole cache state (including the stale entry)
unchanged, and never consults the filesystem tier: the result is the same
for every filesystem-tier content and even when the tier read would
reject. -/
theorem rn_c5 (cfg : PluginConfig) (path : String) (fio : FileOps)
    (st : CacheState) (entry : MemoryCacheEntry) (mtimeMs : Nat) (raw : String)
    (hen : cfg.cacheEnabled = true) (hopen : fio.openOk = true)
    (hstat : fio.statResult = .ok mtimeMs)
    (hmem : readFromMemory st (memoryCacheKey path cfg.platform) = some entry)
    (hstale : entry.modifiedAt ≠ mtimeMs)
    (hread : fio.readResult = .ok raw) :
    (getTransformedSourceFromCache cfg path fio st).result =
      .ok { contents := raw, fromCache := false,
            hash := some (getCacheHash (cfg.platform, cfg.config, path, mtimeMs)) } ∧
    (getTransformedSourceFromCache cfg path fio st).state = st ∧
    ∀ (fsl : List (HashParam × String)) (b : Bool),
      (getTransformedSourceFromCache cfg path
          { fio with tierReadThrows := b }
          { memory := st.memory, filesystem := fsl }).result =
        .ok { contents := raw, fromCache := false,
              hash := some (getCacheHash (cfg.platform, cfg.config, path, mtimeMs)) } := by
  have hmem2 : alookup st.memory (memoryCacheKey path cfg.platform) = some entry := hmem
  refine ⟨?_, ?_, ?_⟩
  · simp [getTransformedSourceFromCache, hen, hopen, hstat, hmem, hstale, hread]
  · simp [getTransformedSourceFromCache, hen, hopen, hstat, hmem, hstale, hread]
  · intro fsl b
    simp [getTransformedSourceFromCache, readFromMemory, hen, hopen, hstat, hmem2,
      hstale, hread]

/-- Witness for C5 at a concrete stale memory entry. -/
theorem rn_c5_witness :
    (getTransformedSourceFromCache cfgOn "/a.js" fioOk stStale).result =
      .ok { contents := "raw", fromCache := false,
            hash := some (getCacheHash (some "android", "cfg", "/a.js", 7)) } ∧
    (getTransformedSourceFromCache cfgOn "/a.js" fioOk stStale).state = stStale :=
  ⟨(rn_c5 cfgOn "/a.js" fioOk stStale { data := "cached", modifiedAt := 3 } 7 "raw"
      rfl rfl rfl (by decide) (by decide) rfl).1,
   (rn_c5 cfgOn "/a.js" fioOk stStale { data := "cached", modifiedAt := 3 } 7 "raw"
      rfl rfl rfl (by decide) (by decide) rfl).2.1⟩

/-- C10: the lookup opens the source file handle exactly when `fs.open`
succeeds, and whenever the handle was opened it is closed again before the
lookup returns or its error propagates, on every path (cache disabled,
memory hit, stale entry, filesystem hit, full miss, and stat, read, or
tier-read failure, all covered by the universally quantified outcomes). -/
theorem rn_c10 (cfg : PluginConfig) (path : String) (fio : FileOps)
    (st : CacheState) :
    (getTransformedSourceFromCache cfg path fio st).opened = fio.openOk ∧
    ((getTransformedSourceFromCache cfg path fio st).opened = true →
      (getTransformedSourceFromCache cfg path fio st).closed = true) := by
  unfold getTransformedSourceFromCache
  cases h : fio.openOk <;> simp [h]

/-- Witness for C10 at concrete successful file operations. -/
theorem rn_c10_witness :
    (getTransformedSourceFromCache cfgOn "/a.js" fioOk stHit).closed = true :=
  (rn_c10 cfgOn "/a.js" fioOk stHit).2 (by decide)

/-- C6: starting from an empty memory tier, when the filesystem tier holds
an entry at the hash of the file's current state, the lookup returns that
content as a hit and promotes it into the memory tier with `modifiedAt`
set to the current modification time, and a second lookup at the same
modification time is then a memory hit: it returns the same content for
every filesystem-tier content, without consulting that tier. -/
theorem rn_c6 (cfg : PluginConfig) (path : String) (fio fio2 : FileOps)
    (mtimeMs : Nat) (content : String) (fsl : List (HashParam × String))
    (hen : cfg.cacheEnabled = true)
    (hopen : fio.openOk = true) (hstat : fio.statResult = .ok mtimeMs)
    (hthrow : fio.tierReadThrows = false)
    (hfs : alookup fsl (getCacheHash (cfg.platform, cfg.config, path, mtimeMs)) =
      some content)
    (hopen2 : fio2.openOk = true) (hstat2 : fio2.statResult = .ok mtimeMs) :
    (getTransformedSourceFromCache cfg path fio
        { memory := [], filesystem := fsl }).result =
      .ok { contents := content, fromCache := true, hash := none } ∧
    (getTransformedSourceFromCache cfg path fio
        { memory := [], filesystem := fsl }).state =
      { memory := [(memoryCacheKey path cfg.platform,
                    { data := content, modifiedAt := mtimeMs })],
        filesystem := fsl } ∧
    ∀ fsl2 : List (HashParam × String),
      (getTransformedSourceFromCache cfg path fio2
          { memory := [(memoryCacheKey path cfg.platform,
                        { data := content, modifiedAt := mtimeMs })],
            filesystem := fsl2 }).result =
        .ok { contents := content, fromCache := true, hash := none } := by
  refine ⟨?_, ?_, ?_⟩
  · simp [getTransformedSourceFromCache, readFromMemory, readFromFileSystem, alookup,
      hen, hopen, hstat, hthrow, hfs]
  · simp [getTransformedSourceFromCache, readFromMemory, readFromFileSystem,
      writeToMemory, alookup, hen, hopen, hstat, hthrow, hfs]
  · intro fsl2
    simp [getTransformedSourceFromCache, readFromMemory, alookup, hen, hopen2, hstat2]

/-- Witness for C6 at a concrete pre-populated filesystem tier. -/
theorem rn_c6_witness :
    (getTransformedSourceFromCache cfgOn "/a.js" fioOk
        { memory := [], filesystem := fslW }).result =
      .ok { contents := "cached", fromCache := true, hash := none } :=
  (rn_c6 cfgOn "/a.js" fioOk fioOk 7 "cached" fslW
    rfl rfl rfl rfl (by decide) rfl rfl).1

/-- C9: whenever the lookup reports a cache hit (`fromCache = true`, from
either tier), the `onLoad` callback returns the looked-up contents
unchanged, leaves the cache state as the lookup produced it, and the
external transformers are never invoked: the load result is the same for
every transformer pair. -/
theorem rn_c9 (cfg : PluginConfig) (t : Transformers) (fsWriteOk : Bool)
    (path : String) (fio : FileOps) (st : CacheState) (r : LookupResult)
    (hres : (getTransformedSourceFromCache cfg path fio st).result = .ok r)
    (hhit : r.fromCache = true) :
    (onLoad cfg t fsWriteOk path fio st).result = .ok r.contents ∧
    (onLoad cfg t fsWriteOk path fio st).state =
      (getTransformedSourceFromCache cfg path fio st).state ∧
    ∀ t2 : Transformers,
      (onLoad cfg t2 fsWriteOk path fio st).result = .ok r.contents := by
  refine ⟨?_, ?_, ?_⟩
  · simp [onLoad, hres, hhit]
  · simp [onLoad, hres, hhit]
  · intro t2
    simp [onLoad, hres, hhit]

/-- Witness for C9 at a concrete memory hit. -/
theorem rn_c9_witness :
    (onLoad cfgOn idTransformers true "/a.js" fioOk stHit).result = .ok "cached" :=
  (rn_c9 cfgOn idTransformers true "/a.js" fioOk stHit
    { contents := "cached", fromCache := true, hash := none } (by decide) rfl).1

/-- C3: with caching disabled, every lookup that completes reports a miss
with no hash; `transformSource` invoked without a hash fails with the
error "hash is required for caching" for every transformer pair (so no
transformer runs), and consequently no `onLoad` call can complete
successfully while caching is disabled. -/
theorem rn_c3 (cfg : PluginConfig) (t : Transformers) (fsWriteOk : Bool)
    (path : String) (fio : FileOps) (st : CacheState)
    (hdis : cfg.cacheEnabled = false) :
    (∀ raw, fio.openOk = true → fio.readResult = .ok raw →
      (getTransformedSourceFromCache cfg path fio st).result =
        .ok { contents := raw, fromCache := false, hash := none }) ∧
    (∀ (t2 : Transformers) (raw : String) (st2 : CacheState),
      transformSource cfg t2 fsWriteOk path raw none st2 =
        .error "hash is required for caching") ∧
    ∃ e, (onLoad cfg t fsWriteOk path fio st).result = .error e := by
  refine ⟨?_, ?_, ?_⟩
  · intro raw hopen hread
    simp [getTransformedSourceFromCache, hdis, hopen, hread]
  · intro t2 raw st2
    rfl
  · cases hopen : fio.openOk with
    | false =>
      exact ⟨"file open failed", by simp [onLoad, getTransformedSourceFromCache, hopen]⟩
    | true =>
      cases hread : fio.readResult with
      | error e =>
        exact ⟨e, by simp [onLoad, getTransformedSourceFromCache, hdis, hopen, hread]⟩
      | ok raw =>
        exact ⟨"hash is required for caching",
          by simp [onLoad, getTransformedSourceFromCache, transformSource, hdis,
            hopen, hread]⟩

/-- Witness for C3: a load with caching disabled fails. -/
theorem rn_c3_witness :
    ∃ e, (onLoad cfgOff idTransformers true "/a.js" fioOk stEmpty).result =
      .error e :=
  (rn_c3 cfgOff idTransformers true "/a.js" fioOk stEmpty rfl).2.2

/-- C8: a failing filesystem-tier write is non-fatal: when the transformer
pipeline succeeds, `transformSource` with a failing write still returns
the freshly computed transformed text (with the tier unchanged), and the
`onLoad` of any miss that reached it still completes with that text. -/
theorem rn_c8 (cfg : PluginConfig) (t : Transformers) (path raw text : String)
    (h : HashParam) (st : CacheState)
    (hp : transformPipeline cfg t path raw = .ok text) :
    transformSource cfg t false path raw (some h) st = .ok (text, st) ∧
    ∀ (fio : FileOps) (st0 : CacheState),
      (getTransformedSourceFromCache cfg path fio st0).result =
        .ok { contents := raw, fromCache := false, hash := some h } →
      (onLoad cfg t false path fio st0).result = .ok text := by
  have hts : ∀ st3 : CacheState,
      transformSource cfg t false path raw (some h) st3 = .ok (text, st3) := by
    intro st3
    simp [transformSource, hp, writeToFileSystem]
  refine ⟨hts st, ?_⟩
  intro fio st0 hres
  simp [onLoad, hres, hts]

/-- Witness for C8 at a concrete miss with a failing tier write. -/
theorem rn_c8_witness :
    transformSource cfgOn idTransformers false "/a.js" "raw" (some hashW) stEmpty =
      .ok ("raw", stEmpty) :=
  (rn_c8 cfgOn idTransformers "/a.js" "raw" "raw" hashW stEmpty rfl).1

/-- C1 fails on the code: after a store (the cache write of
`transformSource`), the filesystem tier holds the stored text but the
memory tier was not written, so the memory-tier read for the path and
platform returns nothing rather than the stored text. -/
theorem rn_c1_counterexample :
    transformSource cfgOn idTransformers true "/a.js" "out" (some hashW) stEmpty =
      .ok ("out", { memory := [], filesystem := [(hashW, "out")] }) ∧
    readFromFileSystem { memory := [], filesystem := [(hashW, "out")] } hashW =
      some "out" ∧
    readFromMemory { memory := [], filesystem := [(hashW, "out")] }
      (memoryCacheKey "/a.js" (some "android")) = none := by
  refine ⟨by decide, by decide, by decide⟩

/-- C1 amended: after the store step completes with a successful
filesystem-tier write, the filesystem-tier read for the hash returns data
equal to the stored text; the memory tier is not written by the store (its
contents are unchanged), and is only populated later by promotion on a
filesystem-tier hit. -/
theorem rn_c1_amended (cfg : PluginConfig) (t : Transformers)
    (path raw text : String) (h : HashParam) (st st2 : CacheState)
    (hok : transformSource cfg t true path raw (some h) st = .ok (text, st2))
    (hen : cfg.cacheEnabled = true) :
    readFromFileSystem st2 h = some text ∧ st2.memory = st.memory := by
  unfold transformSource at hok
  cases hp : transformPipeline cfg t path raw with
  | error e =>
    rw [hp] at hok
    exact absurd hok (by simp)
  | ok s4 =>
    rw [hp, hen] at hok
    simp only [if_true, Except.ok.injEq, Prod.mk.injEq] at hok
    obtain ⟨h1, h2⟩ := hok
    subst h1 h2
    simp [readFromFileSystem, writeToFileSystem, alookup]

/-- Witness for the amended C1 at a concrete store. -/
theorem rn_c1_witness :
    readFromFileSystem { memory := [], filesystem := [(hashW, "out")] } hashW =
      some "out" ∧
    CacheState.memory { memory := [], filesystem := [(hashW, "out")] } =
      CacheState.memory stEmpty :=
  rn_c1_amended cfgOn idTransformers "/a.js" "out" "out" hashW stEmpty
    { memory := [], filesystem := [(hashW, "out")] } (by decide) rfl

/-- C7 fails on the code: the memory-tier key is the plain concatenation
of the file path and the platform (a missing platform contributing the
empty string), which is not injective: the distinct pairs ("/a/b", ios)
and ("/a/bios", no platform) derive the same key. -/
theorem rn_c7_counterexample :
    (("/a/b", (some "ios" : Option String)) ≠
      ("/a/bios", (none : Option String))) ∧
    memoryCacheKey "/a/b" (some "ios") = memoryCacheKey "/a/bios" none := by
  refine ⟨by decide, by decide⟩

/-- C7 amended: distinct (filePath, platform) pairs can share one
memory-tier key across different file paths, because the key is the
concatenation of the path and the platform; however, for a fixed file
path, two pairs whose platform components (a missing platform read as the
empty string) differ always derive distinct keys. -/
theorem rn_c7_amended (path : String) (pf1 pf2 : Option String)
    (hne : pf1.getD "" ≠ pf2.getD "") :
    memoryCacheKey path pf1 ≠ memoryCacheKey path pf2 := by
  intro hc
  apply hne
  have hd := congrArg String.data hc
  simp only [memoryCacheKey, String.data_append] at hd
  exact String.ext (List.append_cancel_left hd)

/-- Witness for the amended C7 at two concrete platforms. -/
theorem rn_c7_witness :
    memoryCacheKey "/a" (some "ios") ≠ memoryCacheKey "/a" (some "android") :=
  rn_c7_amended "/a" (some "ios") (some "android") (by decide)

end RnEsbuild
